import Mathlib

/-!
Shallow embedding of `lllm/utils.py`: a completion gateway wrapping an
external chat-completion API with two retry policies.

External effects are modelled explicitly:
  * the network call is an oracle `call : … → Except Err ApiResponse`;
  * randomized backoff waits are an oracle `wait : Nat → Nat` constrained
    by the tenacity bound `backoffBound`;
  * prints and sleeps are recorded in an event trace;
  * the unbounded `while True` retry loop is run on explicit fuel, with
    `none` meaning "still looping after that many iterations".
-/

/-- Errors. `apiFail` stands for any exception raised by the external
network call; `keyError` / `indexError` model the Python exceptions raised
by direct subscripting outside the try block. -/
inductive Err where
  | apiFail (code : Nat)
  | keyError
  | indexError
  deriving Repr, DecidableEq

/-- An element of a prompt list: a string, or a list of strings
(one extra level of nesting, as used by the local-model branch). -/
inductive PItem where
  | s (x : String)
  | l (xs : List String)
  deriving Repr, DecidableEq

/-- A prompt value: a single string, or a list of prompt items. -/
inductive Prompt where
  | str (x : String)
  | list (ps : List PItem)
  deriving Repr, DecidableEq

/-- Python `str()` of a string element quotes it; apostrophe written as an
escape. Used only to render list prompts the way `str(p)` would. -/
def pyQuote (x : String) : String := "\x27" ++ x ++ "\x27"

/-- Python `str()` of a prompt item. A plain string renders as itself
(`str("a") = "a"`); a list renders with brackets and quoted elements. -/
def pyStrItem : PItem → String
  | PItem.s x => x
  | PItem.l xs => "[" ++ String.intercalate ", " (xs.map pyQuote) ++ "]"

/-- Python `str()` of a full prompt value, for the single-prompt branch
of `completion_create_retry` (line 142: `str(prompt)`). -/
def pyStrPrompt : Prompt → String
  | Prompt.str x => x
  | Prompt.list ps =>
      "[" ++ String.intercalate ", "
        (ps.map (fun p =>
          match p with
          | PItem.s x => pyQuote x
          | PItem.l xs => "[" ++ String.intercalate ", " (xs.map pyQuote) ++ "]")) ++ "]"

/-- One chat message, `{"role": ..., "content": ...}`. The content is kept
as a `Prompt` value: `completion_with_backoff` passes the raw prompt value
through, the retry paths pass `str(...)` strings (as `Prompt.str`). -/
structure ChatMsg where
  role : String
  content : Prompt
  deriving Repr, DecidableEq

/-- A value stored in an outbound payload dictionary. -/
inductive PVal where
  | pstr (s : String)
  | pnat (n : Nat)
  | pint (n : Int)
  | pmsgs (ms : List ChatMsg)
  deriving Repr, DecidableEq

/-- The legacy-style keyword arguments of a request. `none` models an
absent key (Python `kwargs.get` returning `None`). Floats are modelled as
integers; their values are only passed through, never computed on. -/
structure Kwargs where
  model : Option String
  prompt : Option Prompt
  max_tokens : Option Nat
  temperature : Option Int
  top_p : Option Int
  n : Option Nat
  stop : Option String
  presence_penalty : Option Int
  frequency_penalty : Option Int
  logit_bias : Option String
  deriving Repr, DecidableEq

/-- Token-usage counts as reported by the external API. -/
structure Usage where
  prompt_tokens : Nat
  completion_tokens : Nat
  total_tokens : Nat
  deriving Repr, DecidableEq

/-- One choice of an external API response (`choice.message.content` and
`choice.finish_reason` are the only fields the gateway reads). -/
structure ApiChoice where
  content : String
  finish_reason : String
  deriving Repr, DecidableEq

/-- An external API response: model identifier, choices, optional usage. -/
structure ApiResponse where
  model : String
  choices : List ApiChoice
  usage : Option Usage
  deriving Repr, DecidableEq

/-- A legacy-shaped choice (`text`, `index`, `logprobs`, `finish_reason`).
The code always sets `logprobs` to `None`. -/
structure LChoice where
  text : String
  index : Nat
  logprobs : Option Nat
  finish_reason : String
  deriving Repr, DecidableEq

/-- The legacy-shaped response returned to callers. -/
structure LegacyResponse where
  choices : List LChoice
  model : String
  usage : Option Usage
  deriving Repr, DecidableEq

/-- Observable side effects of the retry loops. -/
inductive Event where
  | printErr (e : Err)
  | sleepFor (t : Nat)
  deriving Repr, DecidableEq

/-- The raw `new_kwargs` dictionary of `completion_with_backoff`
(lines 33-44), before `None` values are removed. The `messages` entry
wraps the raw prompt value as a single user message. -/
def rawBackoff (kw : Kwargs) : List (String × Option PVal) :=
  [("model", some (PVal.pstr (kw.model.getD "gpt-3.5-turbo"))),
   ("messages", some (PVal.pmsgs [⟨"user", kw.prompt.getD (Prompt.str "")⟩])),
   ("max_tokens", kw.max_tokens.map PVal.pnat),
   ("temperature", kw.temperature.map PVal.pint),
   ("top_p", kw.top_p.map PVal.pint),
   ("n", kw.n.map PVal.pnat),
   ("stop", kw.stop.map PVal.pstr),
   ("presence_penalty", kw.presence_penalty.map PVal.pint),
   ("frequency_penalty", kw.frequency_penalty.map PVal.pint),
   ("logit_bias", kw.logit_bias.map PVal.pstr)]

/-- The raw per-prompt `new_kwargs` of the list branch of
`completion_create_retry` (lines 104-114). Content is `str(p)`; there is
no `"n"` entry in the source dictionary literal. -/
def rawListItem (kw : Kwargs) (p : PItem) : List (String × Option PVal) :=
  [("model", some (PVal.pstr (kw.model.getD "gpt-3.5-turbo"))),
   ("messages", some (PVal.pmsgs [⟨"user", Prompt.str (pyStrItem p)⟩])),
   ("max_tokens", kw.max_tokens.map PVal.pnat),
   ("temperature", kw.temperature.map PVal.pint),
   ("top_p", kw.top_p.map PVal.pint),
   ("stop", kw.stop.map PVal.pstr),
   ("presence_penalty", kw.presence_penalty.map PVal.pint),
   ("frequency_penalty", kw.frequency_penalty.map PVal.pint),
   ("logit_bias", kw.logit_bias.map PVal.pstr)]

/-- The raw `new_kwargs` of the single-prompt branch of
`completion_create_retry` (lines 144-155). Content is `str(prompt)`. -/
def rawRetrySingle (kw : Kwargs) : List (String × Option PVal) :=
  [("model", some (PVal.pstr (kw.model.getD "gpt-3.5-turbo"))),
   ("messages", some (PVal.pmsgs [⟨"user", Prompt.str (pyStrPrompt (kw.prompt.getD (Prompt.str "")))⟩])),
   ("max_tokens", kw.max_tokens.map PVal.pnat),
   ("temperature", kw.temperature.map PVal.pint),
   ("top_p", kw.top_p.map PVal.pint),
   ("n", kw.n.map PVal.pnat),
   ("stop", kw.stop.map PVal.pstr),
   ("presence_penalty", kw.presence_penalty.map PVal.pint),
   ("frequency_penalty", kw.frequency_penalty.map PVal.pint),
   ("logit_bias", kw.logit_bias.map PVal.pstr)]

/-- `{k: v for k, v in new_kwargs.items() if v is not None}` (lines 47,
117, 158). -/
def stripNone (l : List (String × Option PVal)) : List (String × Option PVal) :=
  l.filter (fun kv => !kv.2.isNone)

/-- The payload actually sent by `completion_with_backoff`. -/
def newKwargsBackoff (kw : Kwargs) : List (String × Option PVal) :=
  stripNone (rawBackoff kw)

/-- The payload actually sent for one prompt of the list branch. -/
def newKwargsListItem (kw : Kwargs) (p : PItem) : List (String × Option PVal) :=
  stripNone (rawListItem kw p)

/-- The payload actually sent by the single-prompt branch of
`completion_create_retry`. -/
def newKwargsRetrySingle (kw : Kwargs) : List (String × Option PVal) :=
  stripNone (rawRetrySingle kw)

/-- The legacy reshape of a single API response (lines 52-65, duplicated
verbatim at lines 163-176): enumerate the choices, keep the API-reported
model, and rebuild the usage mapping when the API provided one. -/
def indexedChoices : Nat → List ApiChoice → List LChoice
  | _, [] => []
  | i, c :: cs => ⟨c.content, i, none, c.finish_reason⟩ :: indexedChoices (i + 1) cs

/-- Reshape used by `completion_with_backoff` and by the single-prompt
branch of `completion_create_retry` (identical source literals). -/
def legacyOfApiSingle (resp : ApiResponse) : LegacyResponse :=
  { choices := indexedChoices 0 resp.choices
    model := resp.model
    usage := resp.usage.map (fun u => ⟨u.prompt_tokens, u.completion_tokens, u.total_tokens⟩) }

/-- The tenacity wait bound for the zero-based attempt index `k`:
`wait_random_exponential(min=1, max=60)` draws uniformly from
`[0, max(1, min(2^k, 60))]`. -/
def backoffBound (k : Nat) : Nat := max 1 (min (2 ^ k) 60)

/-- One attempt of `completion_with_backoff`: build the payload, make the
external call, reshape on success. `call` is the external-service oracle,
indexed by the attempt number. -/
def backoffAttempt (call : Nat → List (String × Option PVal) → Except Err ApiResponse)
    (kw : Kwargs) (k : Nat) : Except Err LegacyResponse :=
  (call k (newKwargsBackoff kw)).map legacyOfApiSingle

/-- The tenacity retry driver: `k` is the current zero-based attempt
index, the second argument the number of attempts still allowed
(`stop_after_attempt`). After a failed attempt that is not the last one,
the drawn wait `wait k` is recorded and the next attempt runs; the last
allowed attempt's error is surfaced. -/
def retryWithBackoff (att : Nat → Except Err LegacyResponse) (wait : Nat → Nat) :
    Nat → Nat → List Nat × Except Err LegacyResponse
  | k, 0 => ([], att k)
  | k, 1 => ([], att k)
  | k, n + 2 =>
    match att k with
    | Except.ok r => ([], Except.ok r)
    | Except.error _ =>
      let p := retryWithBackoff att wait (k + 1) (n + 1)
      (wait k :: p.1, p.2)

/-- `completion_with_backoff` (lines 24-65): the body run under
`@retry(wait=wait_random_exponential(min=1, max=60), stop=stop_after_attempt(10))`.
Returns the waits slept between attempts and the final outcome. -/
def completion_with_backoff (call : Nat → List (String × Option PVal) → Except Err ApiResponse)
    (wait : Nat → Nat) (kw : Kwargs) : List Nat × Except Err LegacyResponse :=
  retryWithBackoff (backoffAttempt call kw) wait 0 10

/-- `delayed_completion_with_backoff` (lines 69-76): sleep for the delay,
then call `completion_with_backoff` and return its result. The first
component records the initial sleep. -/
def delayed_completion_with_backoff (delay : Nat)
    (call : Nat → List (String × Option PVal) → Except Err ApiResponse)
    (wait : Nat → Nat) (kw : Kwargs) :
    (Nat × List Nat) × Except Err LegacyResponse :=
  let p := completion_with_backoff call wait kw
  ((delay, p.1), p.2)

/-- Substring test on character lists: `needle` occurs in the haystack. -/
def charsContain (needle : List Char) : List Char → Bool
  | [] => needle.isPrefixOf []
  | c :: cs => needle.isPrefixOf (c :: cs) || charsContain needle cs

/-- Python `needle in s` on strings (line 82). -/
def strContains (needle s : String) : Bool := charsContain needle.toList s.toList

/-- Whether the model identifier routes to the local endpoint. -/
def isLocalModel (m : String) : Bool :=
  strContains "llama" m || strContains "vicuna" m || strContains "alpaca" m

/-- Python `p[0]` on a prompt item: first element of a list, first
character of a string; `none` is an `IndexError`. -/
def pitemFirst : PItem → Option PItem
  | PItem.s x => if x.isEmpty then none else some (PItem.s (String.singleton x.front))
  | PItem.l [] => none
  | PItem.l (y :: _) => some (PItem.s y)

/-- The prompt value handed to the local endpoint (lines 83-86): if the
first element of the prompt list is itself a list, take `prompt[0]` of
every element; otherwise pass the prompt unchanged. `none` models the
`IndexError` raised by subscripting an empty prompt. -/
def promptsForEndpoint : Prompt → Option Prompt
  | Prompt.str s => if s.isEmpty then none else some (Prompt.str s)
  | Prompt.list [] => none
  | Prompt.list (p :: ps) =>
    match p with
    | PItem.l _ => (List.mapM pitemFirst (p :: ps)).map Prompt.list
    | PItem.s _ => some (Prompt.list (p :: ps))

/-- Result of `completion_create_retry`: the verbatim result of the local
endpoint, a legacy response from the hosted path, or a Python exception
propagated to the caller. -/
inductive RResult (ER : Type) where
  | fromEndpoint (r : ER)
  | api (r : LegacyResponse)
  | exn (e : Err)
  deriving Repr, DecidableEq

/-- Usage accumulation of the list branch (lines 130-133): absent usage
contributes nothing. -/
def usageAdd (t : Usage) (u : Option Usage) : Usage :=
  match u with
  | none => t
  | some u => ⟨t.prompt_tokens + u.prompt_tokens,
               t.completion_tokens + u.completion_tokens,
               t.total_tokens + u.total_tokens⟩

/-- The `for i, p in enumerate(prompt)` loop of the list branch
(lines 100-133): one external call per prompt in order; every returned
choice is appended with `index` equal to the originating prompt's
position; usage is accumulated from the calls that report it. A failed
call aborts the whole iteration with its error. -/
def processListGo (call : Nat → List (String × Option PVal) → Except Err ApiResponse)
    (kw : Kwargs) : Nat → List LChoice → Usage → List PItem → Except Err LegacyResponse
  | _, acc, tu, [] => Except.ok ⟨acc, kw.model.getD "gpt-3.5-turbo", some tu⟩
  | i, acc, tu, p :: ps =>
    match call i (newKwargsListItem kw p) with
    | Except.error e => Except.error e
    | Except.ok resp =>
      processListGo call kw (i + 1)
        (acc ++ resp.choices.map (fun c => ⟨c.content, i, none, c.finish_reason⟩))
        (usageAdd tu resp.usage) ps

/-- The hosted list branch (lines 95-139): zero-initialized usage totals,
empty choice accumulator, then the enumerate loop; on completion the
response reports the caller-side model (`kwargs.get("model", ...)`). -/
def processList (call : Nat → List (String × Option PVal) → Except Err ApiResponse)
    (kw : Kwargs) (ps : List PItem) : Except Err LegacyResponse :=
  processListGo call kw 0 [] ⟨0, 0, 0⟩ ps

/-- The body of the `try` block of the hosted branch (lines 91-176):
dispatch on `isinstance(prompt, list)` with `prompt = kwargs.get("prompt", "")`.
`call` is the external oracle for this iteration, indexed by the position
of the call within the iteration. -/
def attemptBody (call : Nat → List (String × Option PVal) → Except Err ApiResponse)
    (kw : Kwargs) : Except Err LegacyResponse :=
  match kw.prompt.getD (Prompt.str "") with
  | Prompt.list ps => processList call kw ps
  | Prompt.str _ => (call 0 (newKwargsRetrySingle kw)).map legacyOfApiSingle

/-- The `while True` loop (lines 89-179) on explicit fuel: on any error
the diagnostic is printed, the thread sleeps `sleepTime`, and the next
iteration runs; `none` means the loop is still running after `fuel`
iterations. No error outcome exists: exceptions never escape the loop. -/
def hostedLoop (att : Nat → Except Err LegacyResponse) (sleepTime : Nat) :
    Nat → Nat → List Event × Option LegacyResponse
  | _, 0 => ([], none)
  | k, fuel + 1 =>
    match att k with
    | Except.ok r => ([], some r)
    | Except.error e =>
      let p := hostedLoop att sleepTime (k + 1) fuel
      (Event.printErr e :: Event.sleepFor sleepTime :: p.1, p.2)

/-- `completion_create_retry` (lines 79-179). `endpoint` is the supplied
local-endpoint callable (carried outside `Kwargs`, since Python stores it
in `kwargs` itself); `call i j` is the external oracle for the `j`-th call
of iteration `i`; `sleepTime` is the `sleep_time` parameter (default 5 in
the source). Missing `model`/`prompt` keys and empty prompts reproduce the
`KeyError`/`IndexError` raised outside the `try` block. -/
def completion_create_retry {ER : Type} (endpoint : Prompt → Kwargs → ER)
    (call : Nat → Nat → List (String × Option PVal) → Except Err ApiResponse)
    (sleepTime : Nat) (kw : Kwargs) (fuel : Nat) :
    List Event × Option (RResult ER) :=
  match kw.model with
  | none => ([], some (RResult.exn Err.keyError))
  | some m =>
    if isLocalModel m then
      match kw.prompt with
      | none => ([], some (RResult.exn Err.keyError))
      | some pr =>
        match promptsForEndpoint pr with
        | none => ([], some (RResult.exn Err.indexError))
        | some ps => ([], some (RResult.fromEndpoint (endpoint ps kw)))
    else
      let p := hostedLoop (fun k => attemptBody (call k) kw) sleepTime 0 fuel
      (p.1, p.2.map RResult.api)

/-- Componentwise sum of usage records. -/
def addUU (a b : Usage) : Usage :=
  ⟨a.prompt_tokens + b.prompt_tokens,
   a.completion_tokens + b.completion_tokens,
   a.total_tokens + b.total_tokens⟩

/-- The choices the list branch accumulates for prompts at positions
`i, i+1, …`, given the response of each call. -/
def chunkChoices (responses : Nat → ApiResponse) : Nat → List PItem → List LChoice
  | _, [] => []
  | i, _ :: ps =>
    ((responses i).choices.map (fun c => ⟨c.content, i, none, c.finish_reason⟩))
      ++ chunkChoices responses (i + 1) ps

/-- Sum of the usage counts reported by the calls for prompts at
positions `i, i+1, …`; a call without usage contributes zero. -/
def sumUsages (responses : Nat → ApiResponse) : Nat → List PItem → Usage
  | _, [] => ⟨0, 0, 0⟩
  | i, _ :: ps => addUU (((responses i).usage).getD ⟨0, 0, 0⟩) (sumUsages responses (i + 1) ps)

lemma usageAdd_eq_addUU (t : Usage) (u : Option Usage) :
    usageAdd t u = addUU t (u.getD ⟨0, 0, 0⟩) := by
  cases u with
  | none => cases t; simp [usageAdd, addUU]
  | some u => rfl

lemma addUU_zero (a : Usage) : addUU a ⟨0, 0, 0⟩ = a := by
  cases a; simp [addUU]

lemma addUU_assoc (a b c : Usage) : addUU (addUU a b) c = addUU a (addUU b c) := by
  cases a; cases b; cases c; simp [addUU, Nat.add_assoc]

lemma stripNone_mem_iff (l : List (String × Option PVal)) (kv : String × Option PVal) :
    kv ∈ stripNone l ↔ kv ∈ l ∧ kv.2 ≠ none := by
  obtain ⟨k, v⟩ := kv
  rw [stripNone, List.mem_filter]
  cases v <;> simp

lemma stripNone_key_absent (l : List (String × Option PVal)) (key : String)
    (h : ∀ kv ∈ l, kv.1 = key → kv.2 = none) :
    key ∉ (stripNone l).map Prod.fst := by
  intro hmem
  rcases List.mem_map.mp hmem with ⟨kv, hkv, rfl⟩
  rcases (stripNone_mem_iff l kv).mp hkv with ⟨hin, hpred⟩
  exact hpred (h kv hin rfl)

lemma indexedChoices_length (cs : List ApiChoice) : ∀ i, (indexedChoices i cs).length = cs.length := by
  induction cs with
  | nil => intro i; rfl
  | cons c cs ih => intro i; simp [indexedChoices, ih]

lemma indexedChoices_get_index (cs : List ApiChoice) :
    ∀ i j (h : j < (indexedChoices i cs).length), ((indexedChoices i cs).get ⟨j, h⟩).index = i + j := by
  induction cs with
  | nil => intro i j h; simp [indexedChoices] at h
  | cons c cs ih =>
    intro i j h
    cases j with
    | zero => simp [indexedChoices, List.get]
    | succ j =>
      have h' : j < (indexedChoices (i + 1) cs).length := by
        simpa [indexedChoices] using h
      have := ih (i + 1) j h'
      simp only [indexedChoices, List.get] at *
      omega

/-- The waits slept when `n` further failed attempts follow attempt `k`. -/
def waitsFrom (wait : Nat → Nat) : Nat → Nat → List Nat
  | _, 0 => []
  | k, n + 1 => wait k :: waitsFrom wait (k + 1) n

lemma retryWithBackoff_allfail (att : Nat → Except Err LegacyResponse)
    (wait : Nat → Nat) (errs : Nat → Err) (h : ∀ k, att k = Except.error (errs k)) :
    ∀ n k, retryWithBackoff att wait k (n + 1) =
      (waitsFrom wait k n, Except.error (errs (k + n))) := by
  intro n
  induction n with
  | zero => intro k; simp [retryWithBackoff, waitsFrom, h k]
  | succ n ih =>
    intro k
    have step : retryWithBackoff att wait k (n + 2) =
        (wait k :: (retryWithBackoff att wait (k + 1) (n + 1)).1,
         (retryWithBackoff att wait (k + 1) (n + 1)).2) := by
      simp [retryWithBackoff, h k]
    rw [step, ih (k + 1), waitsFrom]
    have : k + 1 + n = k + (n + 1) := by omega
    rw [this]

lemma retryWithBackoff_ok (att : Nat → Except Err LegacyResponse) (wait : Nat → Nat)
    (r : LegacyResponse) :
    ∀ i n k, i < n → (∀ j, j < i → ∃ e, att (k + j) = Except.error e) →
      att (k + i) = Except.ok r → (retryWithBackoff att wait k n).2 = Except.ok r := by
  intro i
  induction i with
  | zero =>
    intro n k _ _ hok
    simp only [Nat.add_zero] at hok
    match n, ‹0 < n› with
    | 1, _ => simp [retryWithBackoff, hok]
    | (m + 2), _ => simp [retryWithBackoff, hok]
  | succ i ih =>
    intro n k hn hfail hok
    rcases hfail 0 (Nat.succ_pos i) with ⟨e, he⟩
    simp only [Nat.add_zero] at he
    match n, hn with
    | (m + 2), hn =>
      have : (retryWithBackoff att wait (k + 1) (m + 1)).2 = Except.ok r := by
        apply ih (m + 1) (k + 1) (by omega)
        · intro j hj
          rcases hfail (j + 1) (by omega) with ⟨e', he'⟩
          exact ⟨e', by rw [show k + 1 + j = k + (j + 1) by omega]; exact he'⟩
        · rw [show k + 1 + i = k + (i + 1) by omega]; exact hok
      simp [retryWithBackoff, he, this]

lemma hostedLoop_allfail (att : Nat → Except Err LegacyResponse) (sleepTime : Nat)
    (h : ∀ k, ∃ e, att k = Except.error e) :
    ∀ fuel k, (hostedLoop att sleepTime k fuel).2 = none
      ∧ (hostedLoop att sleepTime k fuel).1.length = 2 * fuel
      ∧ ∀ ev ∈ (hostedLoop att sleepTime k fuel).1,
          (∃ e, ev = Event.printErr e) ∨ ev = Event.sleepFor sleepTime := by
  intro fuel
  induction fuel with
  | zero => intro k; simp [hostedLoop]
  | succ fuel ih =>
    intro k
    rcases h k with ⟨e, he⟩
    rcases ih (k + 1) with ⟨h1, h2, h3⟩
    refine ⟨by simp [hostedLoop, he, h1], by simp [hostedLoop, he, h2]; omega, ?_⟩
    intro ev hev
    simp only [hostedLoop, he, List.mem_cons] at hev
    rcases hev with rfl | rfl | hev
    · exact Or.inl ⟨e, rfl⟩
    · exact Or.inr rfl
    · exact h3 ev hev

lemma hostedLoop_firstok (att : Nat → Except Err LegacyResponse) (sleepTime : Nat)
    (r : LegacyResponse) (hok : att 0 = Except.ok r) :
    ∀ fuel, 0 < fuel → hostedLoop att sleepTime 0 fuel = ([], some r) := by
  intro fuel hfuel
  match fuel, hfuel with
  | (f + 1), _ => simp [hostedLoop, hok]

lemma processListGo_eq (call : Nat → List (String × Option PVal) → Except Err ApiResponse)
    (kw : Kwargs) (responses : Nat → ApiResponse)
    (hcall : ∀ k p, call k p = Except.ok (responses k)) :
    ∀ (ps : List PItem) (i : Nat) (acc : List LChoice) (tu : Usage),
      processListGo call kw i acc tu ps =
        Except.ok ⟨acc ++ chunkChoices responses i ps,
                   kw.model.getD "gpt-3.5-turbo",
                   some (addUU tu (sumUsages responses i ps))⟩ := by
  intro ps
  induction ps with
  | nil => intro i acc tu; simp [processListGo, chunkChoices, sumUsages, addUU_zero]
  | cons p ps ih =>
    intro i acc tu
    simp only [processListGo, hcall i, ih (i + 1), chunkChoices, sumUsages]
    rw [usageAdd_eq_addUU, addUU_assoc, List.append_assoc]

lemma chunkChoices_length (responses : Nat → ApiResponse)
    (hone : ∀ k, (responses k).choices.length = 1) :
    ∀ (ps : List PItem) (i : Nat), (chunkChoices responses i ps).length = ps.length := by
  intro ps
  induction ps with
  | nil => intro i; rfl
  | cons p ps ih => intro i; simp [chunkChoices, hone i, ih (i + 1), Nat.add_comm]

lemma chunkChoices_getElem? (responses : Nat → ApiResponse)
    (hone : ∀ k, (responses k).choices.length = 1) :
    ∀ (ps : List PItem) (i j : Nat) (el : LChoice),
      (chunkChoices responses i ps)[j]? = some el → el.index = i + j := by
  intro ps
  induction ps with
  | nil => intro i j el h; simp [chunkChoices] at h
  | cons p ps ih =>
    intro i j el h
    rcases List.length_eq_one.mp (hone i) with ⟨c, hc⟩
    rw [chunkChoices, hc] at h
    simp only [List.map_cons, List.map_nil, List.singleton_append] at h
    cases j with
    | zero =>
      rw [List.getElem?_cons_zero] at h
      cases h
      rfl
    | succ j =>
      rw [List.getElem?_cons_succ] at h
      have := ih (i + 1) j el h
      omega

lemma zero_addUU (b : Usage) : addUU ⟨0, 0, 0⟩ b = b := by
  cases b; simp [addUU]

lemma backoffBound_le_60 (k : Nat) : backoffBound k ≤ 60 := by
  rw [backoffBound]
  exact max_le (by norm_num) (min_le_right _ _)

lemma backoffBound_zero : backoffBound 0 = 1 := by norm_num [backoffBound]

/-- C1: when the external call fails on every attempt,
`completion_with_backoff` performs exactly 10 attempts — the nine waits
slept between them are listed explicitly — and surfaces the error of the
10th (last) attempt; every randomized wait is bounded by the exponential
schedule, which starts at 1 time unit and is capped at 60 per attempt. -/
theorem C1_backoff_exhausts_after_ten_attempts
    (call : Nat → List (String × Option PVal) → Except Err ApiResponse)
    (wait : Nat → Nat) (kw : Kwargs) (errs : Nat → Err)
    (hfail : ∀ k p, call k p = Except.error (errs k))
    (hwait : ∀ k, wait k ≤ backoffBound k) :
    completion_with_backoff call wait kw
        = ([wait 0, wait 1, wait 2, wait 3, wait 4, wait 5, wait 6, wait 7, wait 8],
           Except.error (errs 9))
      ∧ (∀ w ∈ (completion_with_backoff call wait kw).1, w ≤ 60)
      ∧ wait 0 ≤ 1
      ∧ backoffBound 0 = 1 ∧ (∀ k, backoffBound k ≤ 60) := by
  have hatt : ∀ k, backoffAttempt call kw k = Except.error (errs k) := by
    intro k; simp [backoffAttempt, hfail, Except.map]
  have hrun : completion_with_backoff call wait kw
      = (waitsFrom wait 0 9, Except.error (errs 9)) := by
    have h := retryWithBackoff_allfail (backoffAttempt call kw) wait errs hatt 9 0
    simpa [completion_with_backoff] using h
  have hws : waitsFrom wait 0 9
      = [wait 0, wait 1, wait 2, wait 3, wait 4, wait 5, wait 6, wait 7, wait 8] := rfl
  refine ⟨by rw [hrun, hws], ?_, ?_, backoffBound_zero, backoffBound_le_60⟩
  · intro w hw
    rw [hrun, hws] at hw
    simp only [List.mem_cons, List.not_mem_nil, or_false] at hw
    rcases hw with rfl|rfl|rfl|rfl|rfl|rfl|rfl|rfl|rfl <;>
      exact le_trans (hwait _) (backoffBound_le_60 _)
  · exact backoffBound_zero ▸ hwait 0

/-- C1 witness: a concrete always-failing oracle with zero waits. -/
theorem C1_backoff_exhausts_after_ten_attempts_witness :
    completion_with_backoff (fun k _ => Except.error (Err.apiFail k)) (fun _ => 0)
        ⟨some "gpt-4", some (Prompt.str "hi"), none, none, none, none, none, none, none, none⟩
      = ([0, 0, 0, 0, 0, 0, 0, 0, 0], Except.error (Err.apiFail 9)) := by
  have h := C1_backoff_exhausts_after_ten_attempts
    (fun k _ => Except.error (Err.apiFail k)) (fun _ => 0)
    ⟨some "gpt-4", some (Prompt.str "hi"), none, none, none, none, none, none, none, none⟩
    (fun k => Err.apiFail k) (fun _ _ => rfl) (fun _ => Nat.zero_le _)
  exact h.1

/-- C7: when the external call fails deterministically on the first
`m < 10` attempts and then succeeds, `completion_with_backoff` returns the
reshaped successful result instead of failing. -/
theorem C7_backoff_recovers_before_cap
    (call : Nat → List (String × Option PVal) → Except Err ApiResponse)
    (wait : Nat → Nat) (kw : Kwargs) (m : Nat) (resp : ApiResponse) (errs : Nat → Err)
    (hm : m < 10)
    (hfail : ∀ k p, k < m → call k p = Except.error (errs k))
    (hok : ∀ p, call m p = Except.ok resp) :
    (completion_with_backoff call wait kw).2 = Except.ok (legacyOfApiSingle resp) := by
  apply retryWithBackoff_ok (backoffAttempt call kw) wait (legacyOfApiSingle resp) m 10 0 hm
  · intro j hj
    refine ⟨errs j, ?_⟩
    simp [backoffAttempt, hfail j _ hj, Except.map]
  · simp [backoffAttempt, hok, Except.map]

/-- C7 witness: fails twice, succeeds on the third attempt. -/
theorem C7_backoff_recovers_before_cap_witness :
    (completion_with_backoff
        (fun k _ => if k < 2 then Except.error (Err.apiFail k)
                    else Except.ok ⟨"gpt-4-0613", [⟨"hello", "stop"⟩], some ⟨1, 2, 3⟩⟩)
        (fun _ => 0)
        ⟨some "gpt-4", some (Prompt.str "hi"), none, none, none, none, none, none, none, none⟩).2
      = Except.ok (legacyOfApiSingle ⟨"gpt-4-0613", [⟨"hello", "stop"⟩], some ⟨1, 2, 3⟩⟩) := by
  apply C7_backoff_recovers_before_cap _ _ _ 2 _ (fun k => Err.apiFail k) (by norm_num)
  · intro k p hk
    simp [hk]
  · intro p
    norm_num

/-- C8: `delayed_completion_with_backoff` sleeps for the given delay and
then behaves exactly as `completion_with_backoff` on the same parameters,
returning precisely its result. -/
theorem C8_delayed_is_sleep_then_backoff (delay : Nat)
    (call : Nat → List (String × Option PVal) → Except Err ApiResponse)
    (wait : Nat → Nat) (kw : Kwargs) :
    (delayed_completion_with_backoff delay call wait kw).2
        = (completion_with_backoff call wait kw).2
    ∧ (delayed_completion_with_backoff delay call wait kw).1
        = (delay, (completion_with_backoff call wait kw).1) :=
  ⟨rfl, rfl⟩

/-- C2: on the hosted branch of `completion_create_retry`, while every
attempt keeps failing the loop never terminates and never lets an
exception escape: for every amount of fuel the run is still in progress
(`none`), no `exn` outcome is ever produced, and the trace consists of
exactly one printed diagnostic and one fixed-delay sleep (`sleepTime`,
default 5 in the source) per failed attempt. -/
theorem C2_retry_swallows_all_errors_forever {ER : Type}
    (endpoint : Prompt → Kwargs → ER)
    (call : Nat → Nat → List (String × Option PVal) → Except Err ApiResponse)
    (sleepTime : Nat) (kw : Kwargs) (m : String)
    (hm : kw.model = some m) (hlocal : isLocalModel m = false)
    (hfail : ∀ k, ∃ e, attemptBody (call k) kw = Except.error e) :
    ∀ fuel,
      (completion_create_retry endpoint call sleepTime kw fuel).2 = none
      ∧ (∀ e, (completion_create_retry endpoint call sleepTime kw fuel).2
            ≠ some (RResult.exn e))
      ∧ (completion_create_retry endpoint call sleepTime kw fuel).1.length = 2 * fuel
      ∧ ∀ ev ∈ (completion_create_retry endpoint call sleepTime kw fuel).1,
          (∃ e, ev = Event.printErr e) ∨ ev = Event.sleepFor sleepTime := by
  intro fuel
  obtain ⟨h1, h2, h3⟩ :=
    hostedLoop_allfail (fun k => attemptBody (call k) kw) sleepTime hfail fuel 0
  have hcr : completion_create_retry endpoint call sleepTime kw fuel
      = ((hostedLoop (fun k => attemptBody (call k) kw) sleepTime 0 fuel).1,
         (hostedLoop (fun k => attemptBody (call k) kw) sleepTime 0 fuel).2.map
           RResult.api) := by
    simp [completion_create_retry, hm, hlocal]
  rw [hcr]
  refine ⟨by simp [h1], by simp [h1], by simpa using h2, ?_⟩
  intro ev hev
  exact h3 ev hev

/-- C2 witness: hosted model, always-failing call, three loop iterations. -/
theorem C2_retry_swallows_all_errors_forever_witness :
    (completion_create_retry (fun _ _ => (0 : Nat))
        (fun _ _ _ => Except.error (Err.apiFail 0)) 5
        ⟨some "gpt-4", some (Prompt.str "hi"), none, none, none, none, none, none, none, none⟩
        3).2 = none
    ∧ (completion_create_retry (fun _ _ => (0 : Nat))
        (fun _ _ _ => Except.error (Err.apiFail 0)) 5
        ⟨some "gpt-4", some (Prompt.str "hi"), none, none, none, none, none, none, none, none⟩
        3).1.length = 6 := by
  have h := C2_retry_swallows_all_errors_forever (fun _ _ => (0 : Nat))
    (fun _ _ _ => Except.error (Err.apiFail 0)) 5
    ⟨some "gpt-4", some (Prompt.str "hi"), none, none, none, none, none, none, none, none⟩
    "gpt-4" rfl (by decide)
    (fun k => ⟨Err.apiFail 0, rfl⟩) 3
  exact ⟨h.1, h.2.2.1⟩

/-- C5: on a single-prompt request, both `completion_with_backoff` and
the single-prompt branch of `completion_create_retry` return the reshape
`legacyOfApiSingle`, whose `choices` has as many entries as the external
API returned — which equals the requested `n` (default 1) when the API
honours the request — and each choice's `index` equals its position. -/
theorem C5_single_prompt_choice_count_and_positions
    (call : Nat → List (String × Option PVal) → Except Err ApiResponse)
    (call2 : Nat → Nat → List (String × Option PVal) → Except Err ApiResponse)
    (wait : Nat → Nat) (kw : Kwargs) (s : String) (resp : ApiResponse)
    (hps : kw.prompt = some (Prompt.str s))
    (hcall : ∀ k p, call k p = Except.ok resp)
    (hcall2 : ∀ j p, call2 0 j p = Except.ok resp)
    (hn : resp.choices.length = kw.n.getD 1) :
    (completion_with_backoff call wait kw).2 = Except.ok (legacyOfApiSingle resp)
    ∧ attemptBody (call2 0) kw = Except.ok (legacyOfApiSingle resp)
    ∧ (legacyOfApiSingle resp).choices.length = kw.n.getD 1
    ∧ ∀ j (hj : j < (legacyOfApiSingle resp).choices.length),
        ((legacyOfApiSingle resp).choices.get ⟨j, hj⟩).index = j := by
  refine ⟨?_, ?_, ?_, ?_⟩
  · apply retryWithBackoff_ok (backoffAttempt call kw) wait (legacyOfApiSingle resp)
      0 10 0 (by norm_num) (by intro j hj; omega)
    simp [backoffAttempt, hcall, Except.map]
  · simp [attemptBody, hps, hcall2, Except.map]
  · simp [legacyOfApiSingle, indexedChoices_length, hn]
  · intro j hj
    have h := indexedChoices_get_index resp.choices 0 j
      (by simpa [legacyOfApiSingle] using hj)
    simpa [legacyOfApiSingle] using h

/-- C5 witness: two completions requested, API returns two choices. -/
theorem C5_single_prompt_choice_count_and_positions_witness :
    (completion_with_backoff
        (fun _ _ => Except.ok ⟨"gpt-4-0613", [⟨"hello", "stop"⟩, ⟨"hey", "stop"⟩], some ⟨1, 2, 3⟩⟩)
        (fun _ => 0)
        ⟨some "gpt-4", some (Prompt.str "hi"), none, none, none, some 2, none, none, none, none⟩).2
      = Except.ok (legacyOfApiSingle ⟨"gpt-4-0613", [⟨"hello", "stop"⟩, ⟨"hey", "stop"⟩], some ⟨1, 2, 3⟩⟩)
    ∧ (legacyOfApiSingle
        ⟨"gpt-4-0613", [⟨"hello", "stop"⟩, ⟨"hey", "stop"⟩], some ⟨1, 2, 3⟩⟩).choices.length = 2 := by
  have h := C5_single_prompt_choice_count_and_positions
    (fun _ _ => Except.ok ⟨"gpt-4-0613", [⟨"hello", "stop"⟩, ⟨"hey", "stop"⟩], some ⟨1, 2, 3⟩⟩)
    (fun _ _ _ => Except.ok ⟨"gpt-4-0613", [⟨"hello", "stop"⟩, ⟨"hey", "stop"⟩], some ⟨1, 2, 3⟩⟩)
    (fun _ => 0)
    ⟨some "gpt-4", some (Prompt.str "hi"), none, none, none, some 2, none, none, none, none⟩
    "hi" ⟨"gpt-4-0613", [⟨"hello", "stop"⟩, ⟨"hey", "stop"⟩], some ⟨1, 2, 3⟩⟩
    rfl (fun _ _ => rfl) (fun _ _ => rfl) rfl
  exact ⟨h.1, h.2.2.1⟩

/-- C3: on the hosted list branch, when every per-prompt call succeeds
with exactly one choice, the returned response has exactly one choice per
prompt, the choice at position `j` carries index `j` (the originating
prompt's position), and the usage field is the sum of the per-call usage
counts. -/
theorem C3_list_branch_one_choice_per_prompt_summed_usage {ER : Type}
    (endpoint : Prompt → Kwargs → ER)
    (call : Nat → Nat → List (String × Option PVal) → Except Err ApiResponse)
    (sleepTime fuel : Nat) (kw : Kwargs) (m : String) (ps : List PItem)
    (responses : Nat → ApiResponse)
    (hm : kw.model = some m) (hlocal : isLocalModel m = false)
    (hp : kw.prompt = some (Prompt.list ps))
    (hcall : ∀ j p, call 0 j p = Except.ok (responses j))
    (hone : ∀ k, (responses k).choices.length = 1)
    (hfuel : 0 < fuel) :
    ∃ r, (completion_create_retry endpoint call sleepTime kw fuel).2
        = some (RResult.api r)
      ∧ r.choices.length = ps.length
      ∧ (∀ j (hj : j < r.choices.length), (r.choices.get ⟨j, hj⟩).index = j)
      ∧ r.usage = some (sumUsages responses 0 ps) := by
  have hbody : attemptBody (call 0) kw
      = Except.ok ⟨chunkChoices responses 0 ps, kw.model.getD "gpt-3.5-turbo",
                   some (sumUsages responses 0 ps)⟩ := by
    simp only [attemptBody, hp, Option.getD_some]
    rw [processList, processListGo_eq (call 0) kw responses hcall ps 0 [] ⟨0, 0, 0⟩,
        zero_addUU]
    simp
  refine ⟨⟨chunkChoices responses 0 ps, kw.model.getD "gpt-3.5-turbo",
           some (sumUsages responses 0 ps)⟩, ?_, ?_, ?_, rfl⟩
  · have hloop := hostedLoop_firstok (fun k => attemptBody (call k) kw) sleepTime _
      hbody fuel hfuel
    simp [completion_create_retry, hm, hlocal, hloop]
  · exact chunkChoices_length responses hone ps 0
  · intro j hj
    have hj' : j < (chunkChoices responses 0 ps).length := hj
    have hsome : (chunkChoices responses 0 ps)[j]? =
        some ((chunkChoices responses 0 ps).get ⟨j, hj'⟩) := by
      rw [List.getElem?_eq_getElem hj']
      simp [List.get_eq_getElem]
    have h := chunkChoices_getElem? responses hone ps 0 j _ hsome
    simpa using h

/-- C3 witness: two prompts, each call returning one choice with usage. -/
theorem C3_list_branch_one_choice_per_prompt_summed_usage_witness :
    ∃ r, (completion_create_retry (fun _ _ => (0 : Nat))
        (fun _ _ _ => Except.ok ⟨"gpt-4-0613", [⟨"ok", "stop"⟩], some ⟨1, 2, 3⟩⟩) 5
        ⟨some "gpt-4", some (Prompt.list [PItem.s "a", PItem.s "b"]),
         none, none, none, none, none, none, none, none⟩ 1).2
        = some (RResult.api r)
      ∧ r.choices.length = 2
      ∧ (∀ j (hj : j < r.choices.length), (r.choices.get ⟨j, hj⟩).index = j)
      ∧ r.usage = some (sumUsages (fun _ => ⟨"gpt-4-0613", [⟨"ok", "stop"⟩], some ⟨1, 2, 3⟩⟩)
          0 [PItem.s "a", PItem.s "b"]) := by
  have h := C3_list_branch_one_choice_per_prompt_summed_usage
    (fun _ _ => (0 : Nat))
    (fun _ _ _ => Except.ok ⟨"gpt-4-0613", [⟨"ok", "stop"⟩], some ⟨1, 2, 3⟩⟩)
    5 1
    ⟨some "gpt-4", some (Prompt.list [PItem.s "a", PItem.s "b"]),
     none, none, none, none, none, none, none, none⟩
    "gpt-4" [PItem.s "a", PItem.s "b"]
    (fun _ => ⟨"gpt-4-0613", [⟨"ok", "stop"⟩], some ⟨1, 2, 3⟩⟩)
    rfl (by decide) rfl (fun _ _ => rfl) (fun _ => rfl) (by norm_num)
  exact h

/-- C10: the hosted list branch always returns a `some` usage mapping —
zero-initialized, accumulating only the calls that reported usage — and
its model field is the caller-supplied identifier; the single-prompt
reshape instead has `usage = none` when the API reports no usage and the
API-reported model. -/
theorem C10_usage_and_model_field_shapes
    (call : Nat → List (String × Option PVal) → Except Err ApiResponse)
    (kw : Kwargs) (m : String) (ps : List PItem) (responses : Nat → ApiResponse)
    (resp : ApiResponse)
    (hm : kw.model = some m)
    (hcall : ∀ k p, call k p = Except.ok (responses k))
    (hnou : resp.usage = none) :
    processList call kw ps
        = Except.ok ⟨chunkChoices responses 0 ps, m, some (sumUsages responses 0 ps)⟩
    ∧ (legacyOfApiSingle resp).usage = none
    ∧ (legacyOfApiSingle resp).model = resp.model := by
  refine ⟨?_, by simp [legacyOfApiSingle, hnou], rfl⟩
  rw [processList, processListGo_eq call kw responses hcall ps 0 [] ⟨0, 0, 0⟩, zero_addUU]
  simp [hm]

/-- C10 witness: one call with usage, one without; a single response
without usage. -/
theorem C10_usage_and_model_field_shapes_witness :
    processList
        (fun k _ => Except.ok (if k = 0
          then ⟨"gpt-4-0613", [⟨"ok", "stop"⟩], some ⟨1, 2, 3⟩⟩
          else ⟨"gpt-4-0613", [⟨"ok", "stop"⟩], none⟩))
        ⟨some "gpt-4", some (Prompt.list [PItem.s "a", PItem.s "b"]),
         none, none, none, none, none, none, none, none⟩
        [PItem.s "a", PItem.s "b"]
      = Except.ok ⟨chunkChoices (fun k => if k = 0
          then ⟨"gpt-4-0613", [⟨"ok", "stop"⟩], some ⟨1, 2, 3⟩⟩
          else ⟨"gpt-4-0613", [⟨"ok", "stop"⟩], none⟩) 0 [PItem.s "a", PItem.s "b"],
          "gpt-4",
          some (sumUsages (fun k => if k = 0
            then ⟨"gpt-4-0613", [⟨"ok", "stop"⟩], some ⟨1, 2, 3⟩⟩
            else ⟨"gpt-4-0613", [⟨"ok", "stop"⟩], none⟩) 0 [PItem.s "a", PItem.s "b"])⟩
    ∧ (legacyOfApiSingle ⟨"gpt-4-0613", [⟨"ok", "stop"⟩], none⟩).usage = none := by
  have h := C10_usage_and_model_field_shapes
    (fun k _ => Except.ok (if k = 0
      then ⟨"gpt-4-0613", [⟨"ok", "stop"⟩], some ⟨1, 2, 3⟩⟩
      else ⟨"gpt-4-0613", [⟨"ok", "stop"⟩], none⟩))
    ⟨some "gpt-4", some (Prompt.list [PItem.s "a", PItem.s "b"]),
     none, none, none, none, none, none, none, none⟩
    "gpt-4" [PItem.s "a", PItem.s "b"]
    (fun k => if k = 0
      then ⟨"gpt-4-0613", [⟨"ok", "stop"⟩], some ⟨1, 2, 3⟩⟩
      else ⟨"gpt-4-0613", [⟨"ok", "stop"⟩], none⟩)
    ⟨"gpt-4-0613", [⟨"ok", "stop"⟩], none⟩
    rfl (fun _ _ => rfl) rfl
  exact ⟨h.1, h.2.1⟩

/-- C9: the per-prompt payload of the hosted list branch never contains
the key `"n"`, whatever the caller set — the source dictionary literal at
lines 104-114 has no `"n"` entry — so each per-prompt call gets the
external API's default completion count. -/
theorem C9_list_branch_payload_never_contains_n (kw : Kwargs) (p : PItem) :
    "n" ∉ (newKwargsListItem kw p).map Prod.fst := by
  apply stripNone_key_absent
  intro kv hkv hkey
  simp only [rawListItem, List.mem_cons, List.not_mem_nil, or_false] at hkv
  rcases hkv with rfl|rfl|rfl|rfl|rfl|rfl|rfl|rfl|rfl <;> simp_all

/-- C9 witness: even with `n` explicitly set to 3 the key is absent. -/
theorem C9_list_branch_payload_never_contains_n_witness :
    "n" ∉ (newKwargsListItem
        ⟨some "gpt-4", some (Prompt.list [PItem.s "a"]), none, none, none, some 3,
         none, none, none, none⟩ (PItem.s "a")).map Prod.fst :=
  C9_list_branch_payload_never_contains_n _ _

/-- Unset parameters of `completion_with_backoff`'s request are absent
from its outbound payload. -/
def omitsUnsetBackoff (kw : Kwargs) : Prop :=
  (kw.max_tokens = none → "max_tokens" ∉ (newKwargsBackoff kw).map Prod.fst)
  ∧ (kw.temperature = none → "temperature" ∉ (newKwargsBackoff kw).map Prod.fst)
  ∧ (kw.top_p = none → "top_p" ∉ (newKwargsBackoff kw).map Prod.fst)
  ∧ (kw.n = none → "n" ∉ (newKwargsBackoff kw).map Prod.fst)
  ∧ (kw.stop = none → "stop" ∉ (newKwargsBackoff kw).map Prod.fst)
  ∧ (kw.presence_penalty = none → "presence_penalty" ∉ (newKwargsBackoff kw).map Prod.fst)
  ∧ (kw.frequency_penalty = none → "frequency_penalty" ∉ (newKwargsBackoff kw).map Prod.fst)
  ∧ (kw.logit_bias = none → "logit_bias" ∉ (newKwargsBackoff kw).map Prod.fst)

/-- Unset parameters are absent from a per-prompt payload of the list
branch (`n` is always absent there, see C9). -/
def omitsUnsetListItem (kw : Kwargs) (p : PItem) : Prop :=
  (kw.max_tokens = none → "max_tokens" ∉ (newKwargsListItem kw p).map Prod.fst)
  ∧ (kw.temperature = none → "temperature" ∉ (newKwargsListItem kw p).map Prod.fst)
  ∧ (kw.top_p = none → "top_p" ∉ (newKwargsListItem kw p).map Prod.fst)
  ∧ (kw.stop = none → "stop" ∉ (newKwargsListItem kw p).map Prod.fst)
  ∧ (kw.presence_penalty = none → "presence_penalty" ∉ (newKwargsListItem kw p).map Prod.fst)
  ∧ (kw.frequency_penalty = none → "frequency_penalty" ∉ (newKwargsListItem kw p).map Prod.fst)
  ∧ (kw.logit_bias = none → "logit_bias" ∉ (newKwargsListItem kw p).map Prod.fst)

/-- Unset parameters are absent from the single-prompt retry payload. -/
def omitsUnsetRetrySingle (kw : Kwargs) : Prop :=
  (kw.max_tokens = none → "max_tokens" ∉ (newKwargsRetrySingle kw).map Prod.fst)
  ∧ (kw.temperature = none → "temperature" ∉ (newKwargsRetrySingle kw).map Prod.fst)
  ∧ (kw.top_p = none → "top_p" ∉ (newKwargsRetrySingle kw).map Prod.fst)
  ∧ (kw.n = none → "n" ∉ (newKwargsRetrySingle kw).map Prod.fst)
  ∧ (kw.stop = none → "stop" ∉ (newKwargsRetrySingle kw).map Prod.fst)
  ∧ (kw.presence_penalty = none → "presence_penalty" ∉ (newKwargsRetrySingle kw).map Prod.fst)
  ∧ (kw.frequency_penalty = none → "frequency_penalty" ∉ (newKwargsRetrySingle kw).map Prod.fst)
  ∧ (kw.logit_bias = none → "logit_bias" ∉ (newKwargsRetrySingle kw).map Prod.fst)

lemma omitsUnsetBackoff_holds (kw : Kwargs) : omitsUnsetBackoff kw := by
  refine ⟨?_, ?_, ?_, ?_, ?_, ?_, ?_, ?_⟩ <;>
    (intro h
     apply stripNone_key_absent
     intro kv hkv hkey
     simp only [rawBackoff, List.mem_cons, List.not_mem_nil, or_false] at hkv
     rcases hkv with rfl|rfl|rfl|rfl|rfl|rfl|rfl|rfl|rfl|rfl <;> simp_all)

lemma omitsUnsetListItem_holds (kw : Kwargs) (p : PItem) : omitsUnsetListItem kw p := by
  refine ⟨?_, ?_, ?_, ?_, ?_, ?_, ?_⟩ <;>
    (intro h
     apply stripNone_key_absent
     intro kv hkv hkey
     simp only [rawListItem, List.mem_cons, List.not_mem_nil, or_false] at hkv
     rcases hkv with rfl|rfl|rfl|rfl|rfl|rfl|rfl|rfl|rfl <;> simp_all)

lemma omitsUnsetRetrySingle_holds (kw : Kwargs) : omitsUnsetRetrySingle kw := by
  refine ⟨?_, ?_, ?_, ?_, ?_, ?_, ?_, ?_⟩ <;>
    (intro h
     apply stripNone_key_absent
     intro kv hkv hkey
     simp only [rawRetrySingle, List.mem_cons, List.not_mem_nil, or_false] at hkv
     rcases hkv with rfl|rfl|rfl|rfl|rfl|rfl|rfl|rfl|rfl|rfl <;> simp_all)

/-- C6: each of the three outbound payloads is exactly its raw parameter
dictionary minus the `None`-valued entries — so no key is ever sent with a
null value — and every sampling parameter the caller leaves unset is
omitted from the payload. -/
theorem C6_unset_params_omitted_and_never_null (kw : Kwargs) (p : PItem) :
    (∀ kv ∈ newKwargsBackoff kw, kv.2 ≠ none)
    ∧ (∀ kv ∈ newKwargsListItem kw p, kv.2 ≠ none)
    ∧ (∀ kv ∈ newKwargsRetrySingle kw, kv.2 ≠ none)
    ∧ (∀ kv, kv ∈ newKwargsBackoff kw ↔ kv ∈ rawBackoff kw ∧ kv.2 ≠ none)
    ∧ (∀ kv, kv ∈ newKwargsListItem kw p ↔ kv ∈ rawListItem kw p ∧ kv.2 ≠ none)
    ∧ (∀ kv, kv ∈ newKwargsRetrySingle kw ↔ kv ∈ rawRetrySingle kw ∧ kv.2 ≠ none)
    ∧ omitsUnsetBackoff kw ∧ omitsUnsetListItem kw p ∧ omitsUnsetRetrySingle kw := by
  refine ⟨?_, ?_, ?_, fun kv => stripNone_mem_iff _ kv, fun kv => stripNone_mem_iff _ kv,
    fun kv => stripNone_mem_iff _ kv,
    omitsUnsetBackoff_holds kw, omitsUnsetListItem_holds kw p,
    omitsUnsetRetrySingle_holds kw⟩
  · exact fun kv hkv => ((stripNone_mem_iff _ kv).mp hkv).2
  · exact fun kv hkv => ((stripNone_mem_iff _ kv).mp hkv).2
  · exact fun kv hkv => ((stripNone_mem_iff _ kv).mp hkv).2

/-- C6 witness: a request with everything unset sends only `model` and
`messages`; none of the optional keys appear and no value is `none`. -/
theorem C6_unset_params_omitted_and_never_null_witness :
    (∀ kv ∈ newKwargsBackoff
        ⟨some "gpt-4", some (Prompt.str "hi"), none, none, none, none, none, none, none, none⟩,
      kv.2 ≠ none)
    ∧ omitsUnsetBackoff
        ⟨some "gpt-4", some (Prompt.str "hi"), none, none, none, none, none, none, none, none⟩
    ∧ omitsUnsetRetrySingle
        ⟨some "gpt-4", some (Prompt.str "hi"), none, none, none, none, none, none, none, none⟩ := by
  have h := C6_unset_params_omitted_and_never_null
    ⟨some "gpt-4", some (Prompt.str "hi"), none, none, none, none, none, none, none, none⟩
    (PItem.s "a")
  exact ⟨h.1, h.2.2.2.2.2.2.1, h.2.2.2.2.2.2.2.2⟩

/-- The claim-side normalization, following the spec's words: the prompts
"flattened to a plain list (one level of list nesting unwrapped)". An
inner list contributes all of its elements. Compare `promptsForEndpoint`,
which keeps only the first element of each item. -/
def specFlattenOneLevel : List PItem → List PItem
  | [] => []
  | PItem.l xs :: ps => xs.map PItem.s ++ specFlattenOneLevel ps
  | PItem.s x :: ps => PItem.s x :: specFlattenOneLevel ps

/-- C4 counterexample: for the local model `llama-7b` with prompt
`[["a", "b"]]` the code hands the endpoint `["a"]` — the first element of
each inner list — while one-level flattening would give `["a", "b"]`; the
second element is silently dropped, so the claim as stated is false. -/
theorem C4_counterexample_drops_second_nested_prompt :
    (completion_create_retry (fun pr (_ : Kwargs) => pr)
        (fun _ _ _ => Except.error (Err.apiFail 0)) 5
        ⟨some "llama-7b", some (Prompt.list [PItem.l ["a", "b"]]),
         none, none, none, none, none, none, none, none⟩ 1).2
      = some (RResult.fromEndpoint (Prompt.list [PItem.s "a"]))
    ∧ specFlattenOneLevel [PItem.l ["a", "b"]] = [PItem.s "a", PItem.s "b"]
    ∧ Prompt.list [PItem.s "a"] ≠ Prompt.list (specFlattenOneLevel [PItem.l ["a", "b"]]) := by
  exact ⟨rfl, rfl, by decide⟩

/-- C4 (amended): for a local-model request whose prompt key is present
and subscriptable, the gateway never invokes the hosted call — the result
is independent of the hosted-call oracle, the sleep time and the fuel —
and delegates to the endpoint, passing the first element of each prompt
item when the first item is a list (equal to the one-level flattening
exactly when every item is a singleton list) and the prompt unchanged
otherwise; the endpoint's result is returned verbatim. -/
theorem C4_amended_local_model_delegates_first_elements {ER : Type}
    (endpoint : Prompt → Kwargs → ER)
    (call call' : Nat → Nat → List (String × Option PVal) → Except Err ApiResponse)
    (sleepTime sleepTime' fuel fuel' : Nat) (kw : Kwargs) (m : String) (pr ps : Prompt)
    (hm : kw.model = some m) (hlocal : isLocalModel m = true)
    (hpr : kw.prompt = some pr) (hps : promptsForEndpoint pr = some ps) :
    completion_create_retry endpoint call sleepTime kw fuel
      = ([], some (RResult.fromEndpoint (endpoint ps kw)))
    ∧ completion_create_retry endpoint call sleepTime kw fuel
      = completion_create_retry endpoint call' sleepTime' kw fuel' := by
  have h1 : completion_create_retry endpoint call sleepTime kw fuel
      = ([], some (RResult.fromEndpoint (endpoint ps kw))) := by
    simp [completion_create_retry, hm, hlocal, hpr, hps]
  have h2 : completion_create_retry endpoint call' sleepTime' kw fuel'
      = ([], some (RResult.fromEndpoint (endpoint ps kw))) := by
    simp [completion_create_retry, hm, hlocal, hpr, hps]
  exact ⟨h1, h1.trans h2.symm⟩

/-- C4 (amended) witness: singleton inner lists, where the code's
normalization coincides with one-level flattening. -/
theorem C4_amended_local_model_delegates_first_elements_witness :
    completion_create_retry (fun pr (_ : Kwargs) => pr)
        (fun _ _ _ => Except.error (Err.apiFail 0)) 5
        ⟨some "vicuna-13b", some (Prompt.list [PItem.l ["a"], PItem.l ["b"]]),
         none, none, none, none, none, none, none, none⟩ 1
      = ([], some (RResult.fromEndpoint (Prompt.list [PItem.s "a", PItem.s "b"]))) := by
  have h := C4_amended_local_model_delegates_first_elements
    (fun pr (_ : Kwargs) => pr) (fun _ _ _ => Except.error (Err.apiFail 0))
    (fun _ _ _ => Except.error (Err.apiFail 0)) 5 5 1 1
    ⟨some "vicuna-13b", some (Prompt.list [PItem.l ["a"], PItem.l ["b"]]),
     none, none, none, none, none, none, none, none⟩
    "vicuna-13b" (Prompt.list [PItem.l ["a"], PItem.l ["b"]])
    (Prompt.list [PItem.s "a", PItem.s "b"])
    rfl (by decide) rfl (by decide)
  exact h.1
